import Mathlib

/-!
# Verification of the ai-diagram-service description-to-diagram compiler

Shallow embedding of the decision logic of the repository
(`app/services/agent_service.py`, `app/services/agent_service_simple.py`,
`app/tools/diagram_tools.py`, `app/services/llm_service.py`): the structured
description parsers, the component classifiers, the diagram-code builders, the
generation orchestrator's result plumbing, the chat-turn keyword policy, and
the in-memory conversation store.  Python strings are modelled as Lean
strings; the character-level helpers below mirror Python's `in`, `split`,
`strip`, `lower` and `title` exactly on the ASCII inputs the service handles.
-/

set_option maxRecDepth 100000

deriving instance DecidableEq for Except

/-- Is `c` an ASCII whitespace character, as stripped by Python `str.strip()`. -/
def isPyWS (c : Char) : Bool :=
  c == ' ' || c == '\t' || c == '\n' || c == '\x0d' || c == '\x0b' || c == '\x0c'

/-- Remove leading and trailing whitespace from a character list. -/
def stripChars (l : List Char) : List Char :=
  ((l.dropWhile isPyWS).reverse.dropWhile isPyWS).reverse

/-- Python `str.strip()`. -/
def pyStrip (s : String) : String :=
  ⟨stripChars s.data⟩

/-- Lower-case one ASCII character (Python `str.lower()` on ASCII). -/
def lowerChar (c : Char) : Char :=
  if 65 ≤ c.toNat && c.toNat ≤ 90 then Char.ofNat (c.toNat + 32) else c

/-- Python `str.lower()` on ASCII text. -/
def lowerStr (s : String) : String :=
  ⟨s.data.map lowerChar⟩

/-- Upper-case one ASCII character. -/
def upperChar (c : Char) : Char :=
  if 97 ≤ c.toNat && c.toNat ≤ 122 then Char.ofNat (c.toNat - 32) else c

/-- Is `c` an ASCII letter. -/
def isAsciiAlpha (c : Char) : Bool :=
  (65 ≤ c.toNat && c.toNat ≤ 90) || (97 ≤ c.toNat && c.toNat ≤ 122)

/-- Helper for Python `str.title()`: the flag records whether the previous
character was a letter. -/
def titleAux : Bool → List Char → List Char
  | _, [] => []
  | prevAlpha, c :: cs =>
    let a := isAsciiAlpha c
    let c2 := if a && !prevAlpha then upperChar c else if a then lowerChar c else c
    c2 :: titleAux a cs

/-- Python `str.title()` on ASCII text. -/
def pyTitle (s : String) : String :=
  ⟨titleAux false s.data⟩

/-- Replace every occurrence of one character by another
(Python `str.replace` with single-character arguments). -/
def replaceChar (a b : Char) (s : String) : String :=
  ⟨s.data.map (fun c => if c == a then b else c)⟩

/-- Does `pat` occur as a prefix of `l`. -/
def headMatches : List Char → List Char → Bool
  | [], _ => true
  | _ :: _, [] => false
  | p :: ps, c :: cs => p == c && headMatches ps cs

/-- Does `pat` occur as a contiguous sublist of `l` (Python `pat in s`). -/
def containsL (pat : List Char) : List Char → Bool
  | [] => headMatches pat []
  | c :: cs => headMatches pat (c :: cs) || containsL pat cs

/-- Python substring test `pat in s`. -/
def strContains (s pat : String) : Bool :=
  containsL pat.data s.data

/-- Python character membership `c in s`. -/
def strContainsCh (s : String) (c : Char) : Bool :=
  containsL [c] s.data

/-- Split a character list at every occurrence of a separator character:
Python `str.split(sep)` with a one-character separator. -/
def splitCh (sep : Char) : List Char → List (List Char)
  | [] => [[]]
  | c :: cs =>
    let r := splitCh sep cs
    if c == sep then [] :: r
    else
      match r with
      | [] => [[c]]
      | h :: t => (c :: h) :: t

/-- Python `s.split('\n')`, producing strings. -/
def splitLines (s : String) : List String :=
  (splitCh '\n' s.data).map String.mk

/-- Text before and after the first occurrence of `pat`, if `pat` occurs:
the first two fields of Python `s.split(pat)`. -/
def splitFirst (pat : List Char) : List Char → Option (List Char × List Char)
  | [] => if headMatches pat [] then some ([], []) else none
  | c :: cs =>
    if headMatches pat (c :: cs) then some ([], (c :: cs).drop pat.length)
    else
      match splitFirst pat cs with
      | none => none
      | some (pre, post) => some (c :: pre, post)

/-- The element of Python `s.split(pat)` at index 0 (text before the first
occurrence, or the whole text when `pat` is absent). -/
def splitPart0 (pat : List Char) (l : List Char) : List Char :=
  match splitFirst pat l with
  | none => l
  | some (pre, _) => pre

/-- The element of Python `s.split(pat)` at index 1: the text between the
first and the second occurrence of `pat` (or everything after the first
occurrence when there is no second one). Defined only when `pat` occurs. -/
def splitPart1 (pat : List Char) (l : List Char) : List Char :=
  match splitFirst pat l with
  | none => []
  | some (_, post) => splitPart0 pat post

/-- The closed set of diagram node categories.  In the source the category is
carried by the icon class chosen for the node: `EC2`/`Server` are Compute,
`RDS`/`PostgreSQL` are Database, `ALB`/`ELB` are LoadBalancer, `Storage` is
Storage. -/
inductive NodeCategory where
  | Compute
  | Database
  | LoadBalancer
  | Storage
deriving DecidableEq, Repr

/-- Classifier of `SimpleAgentService._build_diagram_from_description`
(`app/services/agent_service_simple.py`, the if/elif chain over
`component_type`): web/server first, then database/db, then load/balancer,
then storage, with `Server` (Compute) as the default. -/
def classifySimple (t : String) : NodeCategory :=
  let tl := lowerStr t
  if strContains tl "web" || strContains tl "server" then .Compute
  else if strContains tl "database" || strContains tl "db" then .Database
  else if strContains tl "load" || strContains tl "balancer" then .LoadBalancer
  else if strContains tl "storage" then .Storage
  else .Compute

/-- Classifier of `AgentService._build_diagram_from_description` and
`DiagramGenerator.create_diagram_from_description` (the if/elif chain over the
component name): the phrase "load balancer" or "alb" first, then
"database"/"db", with `EC2` (Compute) as the default. -/
def classifyLegacy (c : String) : NodeCategory :=
  let cl := lowerStr c
  if strContains cl "load balancer" || strContains cl "alb" then .LoadBalancer
  else if strContains cl "database" || strContains cl "db" then .Database
  else .Compute

example : classifySimple "Load Balancer DB" = .Database := by decide
example : classifyLegacy "Load Balancer DB" = .LoadBalancer := by decide
example : classifySimple "Order DB" = .Database := by decide
example : classifySimple "Anything Else" = .Compute := by decide
example : pyTitle (replaceChar '_' ' ' "web_server") = "Web Server" := by decide
example : pyStrip "  a b \n" = "a b" := by decide
example : splitLines "a\nb\n" = ["a", "b", ""] := by decide

/-- A component declaration as produced by
`SimpleAgentService._parse_structured_description`: the dict
with name, type (category hint) and label fields. -/
structure Component where
  name : String
  type : String
  label : String
deriving DecidableEq, Repr

/-- A connection declaration as produced by
`SimpleAgentService._parse_structured_description`: the dict with from and to
fields. -/
structure ConnectionDecl where
  fromName : String
  toName : String
deriving DecidableEq, Repr

/-- The section-mode flag of the line scanners (`current_section` in the
simple parser, the `in_components`/`in_connections` pair in the other). -/
inductive ParseMode where
  | noMode
  | inComps
  | inConns
deriving DecidableEq, Repr

/-- State threaded through the simple parser's line loop. -/
structure SimpleParseState where
  mode : ParseMode
  comps : List Component
  conns : List ConnectionDecl
deriving DecidableEq, Repr

/-- The component built from a name and type part in the simple parser:
label is the title-cased, underscore-to-space version of the name. -/
def mkComponent (name ty : String) : Component :=
  ⟨name, ty, pyTitle (replaceChar '_' ' ' name)⟩

/-- One iteration of the line loop of
`SimpleAgentService._parse_structured_description`
(`app/services/agent_service_simple.py`): strip the line, skip empty lines,
switch section on a line containing "component" or "connection"
(case-insensitively), otherwise parse the line according to the current
section.  In the components section a line containing both parentheses is
read as `name (type)`, else a line containing a colon as `name: type`, and
any other line is ignored; in the connections section a line containing
"->" is split on it into from/to. -/
def processLineSimple (st : SimpleParseState) (rawLine : String) : SimpleParseState :=
  let line := pyStrip rawLine
  if line = "" then st
  else if strContains (lowerStr line) "component" then ⟨.inComps, st.comps, st.conns⟩
  else if strContains (lowerStr line) "connection" then ⟨.inConns, st.comps, st.conns⟩
  else
    match st.mode with
    | .noMode => st
    | .inComps =>
      if strContainsCh line '(' && strContainsCh line ')' then
        let namePart := pyStrip ⟨splitPart0 ['('] line.data⟩
        let typePart := pyStrip ⟨splitPart0 [')'] (splitPart1 ['('] line.data)⟩
        ⟨.inComps, st.comps ++ [mkComponent namePart typePart], st.conns⟩
      else if strContainsCh line ':' then
        let namePart := pyStrip ⟨splitPart0 [':'] line.data⟩
        let typePart := pyStrip ⟨splitPart1 [':'] line.data⟩
        ⟨.inComps, st.comps ++ [mkComponent namePart typePart], st.conns⟩
      else st
    | .inConns =>
      if strContains line "->" then
        let fromPart := pyStrip ⟨splitPart0 ['-', '>'] line.data⟩
        let toPart := pyStrip ⟨splitPart1 ['-', '>'] line.data⟩
        ⟨.inConns, st.comps, st.conns ++ [⟨fromPart, toPart⟩]⟩
      else st

/-- The components and connections collected by the line loop of
`SimpleAgentService._parse_structured_description`, before the defaulting
policy is applied: the text is stripped, split into lines and folded. -/
def parseSimpleRaw (description : String) : List Component × List ConnectionDecl :=
  let final := (splitLines (pyStrip description)).foldl processLineSimple ⟨.noMode, [], []⟩
  (final.comps, final.conns)

/-- The two default components synthesized when no component was parsed. -/
def defaultComponents : List Component :=
  [⟨"web_server", "Web Server", "Web Server"⟩, ⟨"database", "Database", "Database"⟩]

/-- Placeholder never used: `components[0]`/`components[1]` below are read
only under a proof-irrelevant guard that the list has length at least two. -/
def dummyComponent : Component := ⟨"", "", ""⟩

/-- `SimpleAgentService._parse_structured_description`: the raw line scan
followed by the defaulting policy — two default components when none were
parsed, and one default connection from the first to the second component
when none were parsed and at least two components exist. -/
def parseStructuredDescriptionSimple (description : String) :
    List Component × List ConnectionDecl :=
  let (cs, ns) := parseSimpleRaw description
  let cs2 := if cs = [] then defaultComponents else cs
  let ns2 :=
    if ns = [] ∧ 2 ≤ cs2.length then
      [⟨(cs2.getD 0 dummyComponent).name, (cs2.getD 1 dummyComponent).name⟩]
    else ns
  (cs2, ns2)

example :
    parseStructuredDescriptionSimple "" =
      (defaultComponents, [⟨"web_server", "database"⟩]) := by decide
example :
    (parseSimpleRaw "Components:\ncache\nweb (Web)").1 =
      [⟨"web", "Web", "Web"⟩] := by decide
example :
    parseSimpleRaw "Components:\n  web_server (Web Server)\n  db: Database\nConnections:\n  web_server -> db" =
      ([⟨"web_server", "Web Server", "Web Server"⟩, ⟨"db", "Database", "Db"⟩],
        [⟨"web_server", "db"⟩]) := by decide

/-- State threaded through the line loop of
`AgentService._parse_structured_description`: components and connections are
plain strings there. -/
structure AgentParseState where
  mode : ParseMode
  comps : List String
  conns : List String
deriving DecidableEq, Repr

/-- One iteration of the line loop of
`AgentService._parse_structured_description`
(`app/services/agent_service.py`): strip the line; a line containing
"components:" or "connections:" (case-insensitively) switches the section and
is consumed; otherwise a non-empty line not starting with a dash is taken, in
the components section, as the text after the first colon (or the whole line
when it has no colon, kept only if non-empty), and in the connections section
as-is when it contains "->" or the word "connects". -/
def processLineAgent (st : AgentParseState) (rawLine : String) : AgentParseState :=
  let line := pyStrip rawLine
  if strContains (lowerStr line) "components:" then ⟨.inComps, st.comps, st.conns⟩
  else if strContains (lowerStr line) "connections:" then ⟨.inConns, st.comps, st.conns⟩
  else if st.mode = .inComps ∧ line ≠ "" ∧ ¬ line.data.headD ' ' = '-' then
    let comp :=
      if strContainsCh line ':' then pyStrip ⟨splitPart1 [':'] line.data⟩
      else pyStrip line
    if comp ≠ "" then ⟨st.mode, st.comps ++ [comp], st.conns⟩ else st
  else if st.mode = .inConns ∧ line ≠ "" ∧ ¬ line.data.headD ' ' = '-' then
    if strContains line "->" || strContains (lowerStr line) "connects" then
      ⟨st.mode, st.comps, st.conns ++ [pyStrip line]⟩
    else st
  else st

/-- `AgentService._parse_structured_description`: line scan over
`description.split('\n')` followed by the defaulting policy — the fixed
component pair and the fixed connection string when nothing was parsed. -/
def parseStructuredDescriptionAgent (description : String) :
    List String × List String :=
  let final := (splitLines description).foldl processLineAgent ⟨.noMode, [], []⟩
  let cs := if final.comps = [] then ["Web Server", "Database"] else final.comps
  let ns := if final.conns = [] then ["Web Server -> Database"] else final.conns
  (cs, ns)

/-- The synthetic identifier `component_i` assigned to the i-th component by
`AgentService._build_diagram_from_description`. -/
def nodeId (i : Nat) : String :=
  "component_" ++ toString i

/-- Lookup in the `component_vars` dict built by
`AgentService._build_diagram_from_description`: the i-th component name maps
to `component_i`, a later duplicate name overriding an earlier one, and a
missing key yields the supplied default (Python `dict.get(key, default)`). -/
def lookupVarAux (i : Nat) (cs : List String) (k : String) : Option String :=
  match cs with
  | [] => none
  | c :: rest =>
    match lookupVarAux (i + 1) rest k with
    | some v => some v
    | none => if c = k then some (nodeId i) else none

/-- `component_vars.get(name, default)` of the agent builder. -/
def lookupVar (cs : List String) (k dflt : String) : String :=
  (lookupVarAux 0 cs k).getD dflt

/-- The identifiers of the nodes the agent builder defines: one per
component, in order. -/
def agentNodeIds (cs : List String) : List String :=
  (List.range cs.length).map nodeId

/-- The edge the agent builder emits for one connection string, as the pair
of endpoint identifiers: a connection without " -> " is skipped (`none`), a
connection splitting into exactly two parts yields an edge whose endpoints
are looked up with defaults `component_0`/`component_1`, and a connection
with more than one " -> " raises (Python tuple unpacking of more than two
parts). -/
def edgeOfConn (cs : List String) (conn : String) :
    Except String (Option (String × String)) :=
  if strContains conn " -> " then
    match splitFirst (" -> ".data) conn.data with
    | some (pre, post) =>
      if containsL (" -> ".data) post then
        .error "too many values to unpack (expected 2)"
      else
        .ok (some (lookupVar cs (pyStrip ⟨pre⟩) "component_0",
                   lookupVar cs (pyStrip ⟨post⟩) "component_1"))
    | none => .ok none
  else .ok none

/-- The edges the agent builder emits for a connection list, propagating the
first exception (which in the source aborts the whole build). -/
def buildEdgesAgentE (cs : List String) : List String →
    Except String (List (String × String))
  | [] => .ok []
  | conn :: rest =>
    match edgeOfConn cs conn with
    | .error e => .error e
    | .ok none => buildEdgesAgentE cs rest
    | .ok (some ed) =>
      match buildEdgesAgentE cs rest with
      | .error e => .error e
      | .ok es => .ok (ed :: es)

/-- The code line the agent builder emits for the i-th component: the icon
class is `ALB`, `RDS` or `EC2` according to `classifyLegacy`. -/
def agentNodeLine (i : Nat) (c : String) : String :=
  let icon :=
    match classifyLegacy c with
    | .LoadBalancer => "ALB"
    | .Database => "RDS"
    | _ => "EC2"
  "    " ++ nodeId i ++ " = " ++ icon ++ "(\"" ++ c ++ "\")"

/-- Join a list of strings with a separator (Python `sep.join(lines)`). -/
def joinWith (sep : String) : List String → String
  | [] => ""
  | [x] => x
  | x :: y :: xs => x ++ sep ++ joinWith sep (y :: xs)

/-- The node code lines of the agent builder, one per component in order. -/
def agentNodeLines (cs : List String) : List String :=
  (List.range cs.length).zipWith (fun i c => agentNodeLine i c) cs

/-- The fixed header lines of the code emitted by
`AgentService._build_diagram_from_description`. -/
def agentHeaderLines : List String :=
  ["from diagrams import Diagram, Cluster",
   "from diagrams.aws.compute import EC2",
   "from diagrams.aws.database import RDS",
   "from diagrams.aws.network import ALB",
   "",
   "with Diagram(\"Generated Architecture\", show=False):"]

/-- The diagram code the agent builder emits when no connection raises. -/
def buildCodeAgentE (cs conns : List String) : Except String String :=
  match buildEdgesAgentE cs conns with
  | .error e => .error e
  | .ok edges =>
    .ok (joinWith "\n"
      (agentHeaderLines ++ agentNodeLines cs ++
        edges.map (fun ed => "    " ++ ed.1 ++ " >> " ++ ed.2)))

/-- The hard-coded fallback code returned by
`AgentService._build_diagram_from_description` when any exception occurs. -/
def agentFallbackCode : String :=
  "\nfrom diagrams import Diagram\nfrom diagrams.aws.compute import EC2\nfrom diagrams.aws.database import RDS\n\nwith Diagram(\"Simple Architecture\", show=False):\n    web = EC2(\"Web Server\")\n    db = RDS(\"Database\")\n    web >> db\n"

/-- `AgentService._build_diagram_from_description`: parse the structured
description, emit the code, and catch any exception by returning the fixed
fallback diagram code. -/
def buildDiagramFromDescription (structured : String) : String :=
  let (cs, ns) := parseStructuredDescriptionAgent structured
  match buildCodeAgentE cs ns with
  | .ok code => code
  | .error _ => agentFallbackCode

example :
    parseStructuredDescriptionAgent "Components:\n- skipped\nAPI: Gateway\nConnections:\na -> b" =
      (["Gateway"], ["a -> b"]) := by decide
example :
    buildEdgesAgentE ["App"] ["App -> Ghost"] =
      .ok [("component_0", "component_1")] := by decide
example :
    buildEdgesAgentE ["A", "B"] ["a -> b -> c"] =
      .error "too many values to unpack (expected 2)" := by decide
example :
    buildDiagramFromDescription "x" =
      joinWith "\n" (agentHeaderLines ++
        ["    component_0 = EC2(\"Web Server\")",
         "    component_1 = RDS(\"Database\")",
         "    component_0 >> component_1"]) := by decide

/-- `DiagramGenerator._web_app_template` (`app/tools/diagram_tools.py`). -/
def webAppTemplate : String :=
  joinWith "\n"
    ["",
     "from diagrams import Diagram, Cluster",
     "from diagrams.aws.compute import EC2",
     "from diagrams.aws.database import RDS",
     "from diagrams.aws.network import ALB",
     "",
     "with Diagram(\"Web Application Architecture\", show=False):",
     "    with Cluster(\"Web Tier\"):",
     "        alb = ALB(\"Application Load Balancer\")",
     "        web1 = EC2(\"Web Server 1\")",
     "        web2 = EC2(\"Web Server 2\")",
     "        ",
     "        alb >> web1",
     "        alb >> web2",
     "    ",
     "    db = RDS(\"Database\")",
     "    ",
     "    web1 >> db",
     "    web2 >> db",
     ""]

/-- `DiagramGenerator._microservices_template` (`app/tools/diagram_tools.py`). -/
def microservicesTemplate : String :=
  joinWith "\n"
    ["",
     "from diagrams import Diagram, Cluster",
     "from diagrams.aws.compute import EC2",
     "from diagrams.aws.database import RDS",
     "from diagrams.aws.network import APIGateway",
     "from diagrams.aws.integration import SQS",
     "from diagrams.aws.management import Cloudwatch",
     "from diagrams.aws.security import IAM",
     "",
     "with Diagram(\"Microservices Architecture\", show=False):",
     "    gateway = APIGateway(\"API Gateway\")",
     "    ",
     "    with Cluster(\"Services\"):",
     "        service1 = EC2(\"User Service\")",
     "        service2 = EC2(\"Order Service\")",
     "        service3 = EC2(\"Payment Service\")",
     "    ",
     "    with Cluster(\"Data Layer\"):",
     "        db1 = RDS(\"User Database\")",
     "        db2 = RDS(\"Order Database\")",
     "        db3 = RDS(\"Payment Database\")",
     "    ",
     "    queue = SQS(\"Message Queue\")",
     "    monitoring = Cloudwatch(\"Monitoring\")",
     "    ",
     "    gateway >> service1",
     "    gateway >> service2",
     "    gateway >> service3",
     "    ",
     "    service1 >> db1",
     "    service2 >> db2",
     "    service3 >> db3",
     "    ",
     "    service1 >> queue",
     "    service2 >> queue",
     "    service3 >> queue",
     "    ",
     "    service1 >> monitoring",
     "    service2 >> monitoring",
     "    service3 >> monitoring",
     ""]

/-- `DiagramGenerator._generic_template` (`app/tools/diagram_tools.py`): the
title is the first 50 characters of the description. -/
def genericTemplate (description : String) : String :=
  joinWith "\n"
    ["",
     "from diagrams import Diagram",
     "from diagrams.aws.compute import EC2",
     "from diagrams.aws.database import RDS",
     "from diagrams.aws.network import ALB",
     "",
     "with Diagram(\"" ++ String.mk (description.data.take 50) ++ "\", show=False):",
     "    alb = ALB(\"Load Balancer\")",
     "    web = EC2(\"Web Server\")",
     "    db = RDS(\"Database\")",
     "    ",
     "    alb >> web",
     "    web >> db",
     ""]

/-- `DiagramGenerator._generate_diagram_code`: keyword-template selection on
the lower-cased raw description. -/
def generateDiagramCode (description : String) : String :=
  let dl := lowerStr description
  if strContains dl "web application" && strContains dl "load balancer" then
    webAppTemplate
  else if strContains dl "microservices" then microservicesTemplate
  else genericTemplate description

/-- `LLMService._mock_diagram_code` web branch (`app/services/llm_service.py`):
textually identical to the web application template of the diagram tools. -/
def mockWebAppCode : String :=
  joinWith "\n"
    ["",
     "from diagrams import Diagram, Cluster",
     "from diagrams.aws.compute import EC2",
     "from diagrams.aws.database import RDS",
     "from diagrams.aws.network import ALB",
     "",
     "with Diagram(\"Web Application Architecture\", show=False):",
     "    with Cluster(\"Web Tier\"):",
     "        alb = ALB(\"Application Load Balancer\")",
     "        web1 = EC2(\"Web Server 1\")",
     "        web2 = EC2(\"Web Server 2\")",
     "        ",
     "        alb >> web1",
     "        alb >> web2",
     "    ",
     "    db = RDS(\"Database\")",
     "    ",
     "    web1 >> db",
     "    web2 >> db",
     ""]

/-- `LLMService._mock_diagram_code` microservices branch. -/
def mockMicroservicesCode : String :=
  joinWith "\n"
    ["",
     "from diagrams import Diagram, Cluster",
     "from diagrams.aws.compute import EC2",
     "from diagrams.aws.database import RDS",
     "from diagrams.aws.network import APIGateway",
     "from diagrams.aws.integration import SQS",
     "from diagrams.aws.management import Cloudwatch",
     "",
     "with Diagram(\"Microservices Architecture\", show=False):",
     "    api_gateway = APIGateway(\"API Gateway\")",
     "    ",
     "    with Cluster(\"Microservices\"):",
     "        auth_service = EC2(\"Auth Service\")",
     "        payment_service = EC2(\"Payment Service\")",
     "        order_service = EC2(\"Order Service\")",
     "        ",
     "        api_gateway >> auth_service",
     "        api_gateway >> payment_service",
     "        api_gateway >> order_service",
     "    ",
     "    sqs = SQS(\"Message Queue\")",
     "    db = RDS(\"Shared Database\")",
     "    monitoring = Cloudwatch(\"Monitoring\")",
     "    ",
     "    auth_service >> sqs",
     "    payment_service >> sqs",
     "    order_service >> sqs",
     "    ",
     "    auth_service >> db",
     "    payment_service >> db",
     "    order_service >> db",
     "    ",
     "    monitoring >> auth_service",
     "    monitoring >> payment_service",
     "    monitoring >> order_service",
     ""]

/-- `LLMService._mock_diagram_code` generic branch. -/
def mockGenericCode : String :=
  joinWith "\n"
    ["",
     "from diagrams import Diagram, Cluster",
     "from diagrams.aws.compute import EC2",
     "from diagrams.aws.database import RDS",
     "from diagrams.aws.network import VPC",
     "",
     "with Diagram(\"Custom Architecture\", show=False):",
     "    with Cluster(\"Main Cluster\"):",
     "        service1 = EC2(\"Service 1\")",
     "        service2 = EC2(\"Service 2\")",
     "    ",
     "    database = RDS(\"Database\")",
     "    ",
     "    service1 >> database",
     "    service2 >> database",
     ""]

/-- `LLMService._mock_diagram_code`: the structured description the mock LLM
returns, chosen by keyword match on the lower-cased description. -/
def mockDiagramCode (description : String) : String :=
  let dl := lowerStr description
  if strContains dl "web" && strContains dl "load balancer" then mockWebAppCode
  else if strContains dl "microservices" then mockMicroservicesCode
  else mockGenericCode

/-- The dictionary returned by `DiagramGenerator.create_diagram`
(`app/tools/diagram_tools.py`). -/
structure ToolResult where
  success : Bool
  filePath : Option String
  diagramCode : Option String
  error : Option String
deriving DecidableEq, Repr

/-- `DiagramGenerator.create_diagram`: regenerate diagram code from the raw
description by keyword templates and execute it.  The rendering collaborator
is external; its outcome is the parameter `renderOutcome` (`none` = the
execution succeeded, `some e` = it raised with message `e`).  On success the
result carries the output path and the executed code; any exception is caught
and converted into a failure dict carrying the exception text and no code. -/
def createDiagram (description outputPath : String) (renderOutcome : Option String) :
    ToolResult :=
  let code := generateDiagramCode description
  match renderOutcome with
  | none => ⟨true, some outputPath, some code, none⟩
  | some e => ⟨false, none, none, some e⟩

/-- The dictionary returned by `AgentService.generate_diagram`
(`app/services/agent_service.py`). -/
structure GenResult where
  success : Bool
  imageUrl : Option String
  diagramCode : Option String
  error : Option String
deriving DecidableEq, Repr

/-- `AgentService.generate_diagram`: the orchestrator.  The structured
description comes from the LLM collaborator (`structuredE`, an exception
carrying its message when that step raises); the random filename is the
parameter `filename`; the renderer outcome is passed through to
`create_diagram`.  On renderer failure the fixed message
"Failed to generate diagram image" is returned together with the code built
from the structured description; an exception before that is caught at the
boundary and yields its message and no code. -/
def generateDiagram (description : String) (structuredE : Except String String)
    (renderOutcome : Option String) (filename : String) : GenResult :=
  match structuredE with
  | .error e => ⟨false, none, none, some e⟩
  | .ok structured =>
    let code := buildDiagramFromDescription structured
    let result := createDiagram description ("./temp/" ++ filename) renderOutcome
    if result.success then
      ⟨true, some ("/images/" ++ filename), some code, none⟩
    else
      ⟨false, none, some code, some "Failed to generate diagram image"⟩

/-- `LLMService._mock_assistant_response`: canned assistant replies chosen by
keyword match on the lower-cased message. -/
def mockAssistantResponse (message : String) : String :=
  let ml := lowerStr message
  if strContains ml "diagram" then
    "I\x27d be happy to help you create a diagram! Could you tell me more about what you\x27d like to visualize? For example, are you looking to create a system architecture, network diagram, or something else?"
  else if strContains ml "help" then
    "I can help you create various types of diagrams including system architectures, network diagrams, microservices layouts, and more. Just describe what you want to visualize and I\x27ll help you create it!"
  else
    "Hello! I\x27m here to help you create diagrams. What would you like to visualize today?"

/-- The intent test of `AgentService.assistant_chat`
(`app/services/agent_service.py`, identical in the simple variant): attempt
diagram generation exactly when the assistant's reply contains "diagram" and
the user's message contains one of "create", "make", "generate", "show", all
case-insensitively. -/
def chatAttemptsGeneration (message response : String) : Bool :=
  strContains (lowerStr response) "diagram" &&
    (["create", "make", "generate", "show"].any
      (fun w => strContains (lowerStr message) w))

/-- The dictionary returned by `AgentService.assistant_chat`, together with
the flag recording whether diagram generation was attempted this turn. -/
structure ChatOutcome where
  message : String
  hasDiagram : Bool
  diagramUrl : Option String
  diagramCode : Option String
  attempted : Bool
deriving DecidableEq, Repr

/-- The decision core of `AgentService.assistant_chat` after the assistant
reply is obtained: compute `has_diagram`, and if it is set, attempt
generation and copy the artifact fields on success (on generation failure the
flag stays set with empty artifact fields, as in the source). -/
def assistantChatCore (message response : String) (gen : GenResult) : ChatOutcome :=
  let hd := chatAttemptsGeneration message response
  if hd then
    if gen.success then ⟨response, true, gen.imageUrl, gen.diagramCode, true⟩
    else ⟨response, true, none, none, true⟩
  else ⟨response, false, none, none, false⟩

/-- `AgentService.assistant_chat` with its error boundary: when obtaining the
assistant reply raises, the canned apology is returned with no diagram. -/
def assistantChat (message : String) (responseE : Except String String)
    (gen : GenResult) : ChatOutcome :=
  match responseE with
  | .ok response => assistantChatCore message response gen
  | .error _ =>
    ⟨"Sorry, I\x27m having trouble right now. Please try again!",
      false, none, none, false⟩

example : chatAttemptsGeneration "build a diagram" (mockAssistantResponse "build a diagram") = false := by decide
example : chatAttemptsGeneration "please create a diagram" (mockAssistantResponse "please create a diagram") = true := by decide

/-- One transcript entry of the in-memory conversation store: a role-tagged
message with a timestamp (`datetime.now()` in the source, abstracted to a
number). -/
structure ConversationTurn where
  role : String
  content : String
  time : Nat
deriving DecidableEq, Repr

/-- The process-wide conversation table `self.conversations`: a dictionary
from conversation identifier to the ordered transcript. -/
def ConvState : Type := String → Option (List ConversationTurn)

/-- The store at service start: no conversations. -/
def emptyConv : ConvState := fun _ => none

/-- Appending one turn to a conversation
(`self.conversations[conversation_id].append(...)`, the entry being created
first for a new conversation): the turn goes to the end of the transcript. -/
def convAppend (st : ConvState) (id : String) (t : ConversationTurn) : ConvState :=
  fun k => if k = id then some (((st id).getD []) ++ [t]) else st k

/-- Appending a sequence of turns in order. -/
def convAppendAll (st : ConvState) (id : String) (ts : List ConversationTurn) :
    ConvState :=
  ts.foldl (fun s t => convAppend s id t) st

/-- The last `n` elements of a list, in order: Python `xs[-n:]` for `n > 0`. -/
def takeLast (n : Nat) (l : List α) : List α :=
  l.drop (l.length - n)

/-- Reading the most recent turns of a conversation, as
`AgentService._get_conversation_context` does
(`self.conversations[conversation_id][-6:]`, with an unknown identifier
giving the empty context): at most the last `n` turns in insertion order; the
source instantiates `n` with 6. -/
def recentTurns (st : ConvState) (id : String) (n : Nat) : List ConversationTurn :=
  match st id with
  | none => []
  | some ts => takeLast n ts

/-- Deleting a conversation, as `AgentService.cleanup_conversation` does
(`del self.conversations[conversation_id]` guarded by a membership test):
returns the new store and whether a record existed. -/
def convDelete (st : ConvState) (id : String) : ConvState × Bool :=
  (fun k => if k = id then none else st k, (st id).isSome)

example :
    recentTurns (convAppendAll emptyConv "c" [⟨"user", "hi", 0⟩, ⟨"assistant", "hello", 1⟩]) "c" 1 =
      [⟨"assistant", "hello", 1⟩] := by decide
example :
    recentTurns ((convDelete (convAppend emptyConv "c" ⟨"user", "hi", 0⟩) "c").1) "c" 6 = [] := by decide

/-- The nodes emitted by `SimpleAgentService._build_diagram_from_description`:
one per component in input order, tagged with the category chosen by the
if/elif icon chain over the component type, labelled with the component
label. -/
def buildNodesSimple (cs : List Component) : List (String × NodeCategory × String) :=
  cs.map (fun c => (c.name, classifySimple c.type, c.label))

/-- The edges emitted by `SimpleAgentService._build_diagram_from_description`:
one per connection in input order, the endpoint names taken verbatim from the
connection declaration. -/
def buildEdgesSimple (ns : List ConnectionDecl) : List (String × String) :=
  ns.map (fun n => (n.fromName, n.toName))

/-! ## Claim C2 — classifier keyword priority -/

/-- Claim C2, counterexample.  The claim states that classification tries the
keyword groups in the order load/balancer, then database/db, then storage,
then web/server, so that classify("Load Balancer DB") yields LoadBalancer.
The classifier of the cited simple builder
(`agent_service_simple.py` lines 285-295) checks database/db before
load/balancer and therefore maps "Load Balancer DB" to Database, not
LoadBalancer. -/
theorem classifySimple_load_balancer_db_is_database :
    classifySimple "Load Balancer DB" = NodeCategory.Database ∧
    NodeCategory.Database ≠ NodeCategory.LoadBalancer := by
  decide

/-- Claim C2, amended.  The two classifiers disagree on the priority order:
the legacy builder (`agent_service.py`, `diagram_tools.py`) checks the phrase
"load balancer" (or "alb") first, then "database"/"db", default Compute, so
it maps "Load Balancer DB" to LoadBalancer; the simple builder checks
web/server first, then database/db, then load/balancer, then storage,
default Compute, so it maps "Load Balancer DB" to Database.  Both map
"Order DB" to Database and "Anything Else" to Compute.  The remaining
conjuncts exhibit the simple builder's actual tie-break order
(web/server over db, db over load, load over storage) and that the legacy
builder does not react to "load" alone. -/
theorem classifier_priority_actual :
    classifyLegacy "Load Balancer DB" = NodeCategory.LoadBalancer ∧
    classifySimple "Load Balancer DB" = NodeCategory.Database ∧
    classifyLegacy "Order DB" = NodeCategory.Database ∧
    classifySimple "Order DB" = NodeCategory.Database ∧
    classifyLegacy "Anything Else" = NodeCategory.Compute ∧
    classifySimple "Anything Else" = NodeCategory.Compute ∧
    classifySimple "web db load storage" = NodeCategory.Compute ∧
    classifySimple "db load storage" = NodeCategory.Database ∧
    classifySimple "load storage" = NodeCategory.LoadBalancer ∧
    classifySimple "storage only" = NodeCategory.Storage ∧
    classifyLegacy "load db" = NodeCategory.Database := by
  decide

/-! ## Claim C3 — the rendered program is not the reported program -/

/-- Claim C3, failing-input evaluation.  For the description
"Create a microservices architecture" in mock mode, the program text that
`create_diagram` actually executes (the keyword-template regeneration of the
raw description, here the microservices template) differs from the program
text `generate_diagram` reports back (the code built from the mock LLM's
structured description).  The orchestrator therefore renders an image from a
program other than the one it returns. -/
theorem generate_reports_program_other_than_executed :
    (generateDiagram "Create a microservices architecture"
        (.ok (mockDiagramCode "Create a microservices architecture"))
        none "f.png").diagramCode ≠
      (createDiagram "Create a microservices architecture"
          "./temp/f.png" none).diagramCode := by
  decide

/-! ## Claim C4 — renderer failure reporting -/

/-- Claim C4, counterexample.  When the rendering step fails with message
"boom", `generate_diagram` reports the fixed string
"Failed to generate diagram image", not the renderer's message verbatim. -/
theorem render_failure_message_not_verbatim :
    (generateDiagram "d" (.ok "s") (some "boom") "f.png").error =
        some "Failed to generate diagram image" ∧
    (generateDiagram "d" (.ok "s") (some "boom") "f.png").error ≠ some "boom" := by
  refine ⟨rfl, ?_⟩
  decide

/-- Claim C4, amended.  Whenever the rendering step fails, `generate_diagram`
returns success = false with the fixed error message
"Failed to generate diagram image" (the renderer's own message is
discarded), and the program text built from the structured description is
still present in the result. -/
theorem generate_render_failure_behavior (d s e fn : String) :
    (generateDiagram d (.ok s) (some e) fn).success = false ∧
    (generateDiagram d (.ok s) (some e) fn).error =
        some "Failed to generate diagram image" ∧
    (generateDiagram d (.ok s) (some e) fn).diagramCode =
        some (buildDiagramFromDescription s) := by
  exact ⟨rfl, rfl, rfl⟩

/-! ## Claim C1 — edge endpoints and the substitution defaults -/

/-- Any identifier the `component_vars` lookup returns (when the key is
present) is the synthetic identifier of some component index. -/
theorem lookupVarAux_bound :
    ∀ (cs : List String) (i : Nat) (k v : String),
      lookupVarAux i cs k = some v → ∃ j, i ≤ j ∧ j < i + cs.length ∧ v = nodeId j := by
  intro cs
  induction cs with
  | nil => intro i k v h; simp [lookupVarAux] at h
  | cons c rest ih =>
    intro i k v h
    unfold lookupVarAux at h
    cases hrec : lookupVarAux (i + 1) rest k with
    | some w =>
      rw [hrec] at h
      injection h with h
      obtain ⟨j, hj1, hj2, hj3⟩ := ih (i + 1) k w hrec
      subst h
      exact ⟨j, by omega, by simp only [List.length_cons]; omega, hj3⟩
    | none =>
      rw [hrec] at h
      by_cases hc : c = k
      · simp only [hc, if_pos rfl] at h
        injection h with h
        exact ⟨i, Nat.le_refl i, by simp only [List.length_cons]; omega, h.symm⟩
      · simp [hc] at h

/-- The identifier `nodeId j` is among the defined node identifiers exactly
when `j` is a valid component index. -/
theorem nodeId_mem_agentNodeIds (cs : List String) (j : Nat) (hj : j < cs.length) :
    nodeId j ∈ agentNodeIds cs :=
  List.mem_map_of_mem nodeId (List.mem_range.mpr hj)

/-- A `component_vars.get` result is a defined node identifier whenever the
supplied default is one. -/
theorem lookupVar_mem (cs : List String) (k dflt : String)
    (hd : dflt ∈ agentNodeIds cs) : lookupVar cs k dflt ∈ agentNodeIds cs := by
  unfold lookupVar
  cases hlk : lookupVarAux 0 cs k with
  | none => simpa using hd
  | some v =>
    obtain ⟨j, _, hj2, rfl⟩ := lookupVarAux_bound cs 0 k v hlk
    exact nodeId_mem_agentNodeIds cs j (by omega)


/-- Both endpoints of an edge the agent builder emits for one connection are
defined node identifiers, provided at least two components exist. -/
theorem edgeOfConn_endpoints (cs : List String) (conn : String) (a b : String)
    (h2 : 2 ≤ cs.length) (h : edgeOfConn cs conn = .ok (some (a, b))) :
    a ∈ agentNodeIds cs ∧ b ∈ agentNodeIds cs := by
  have h0 : "component_0" ∈ agentNodeIds cs := by
    have e0 : nodeId 0 = "component_0" := by decide
    exact e0 ▸ nodeId_mem_agentNodeIds cs 0 (by omega)
  have h1 : "component_1" ∈ agentNodeIds cs := by
    have e1 : nodeId 1 = "component_1" := by decide
    exact e1 ▸ nodeId_mem_agentNodeIds cs 1 (by omega)
  by_cases hin : strContains conn " -> " = true
  · cases hsp : splitFirst (" -> ".data) conn.data with
    | none => simp [edgeOfConn, hin, hsp] at h
    | some pp =>
      obtain ⟨pre, post⟩ := pp
      by_cases hct : containsL (" -> ".data) post = true
      · simp [edgeOfConn, hin, hsp, hct] at h
      · have hval : edgeOfConn cs conn =
            .ok (some (lookupVar cs (pyStrip ⟨pre⟩) "component_0",
                       lookupVar cs (pyStrip ⟨post⟩) "component_1")) := by
          simp [edgeOfConn, hin, hsp, hct]
        rw [hval] at h
        injection h with h
        injection h with h
        have ha : lookupVar cs (pyStrip ⟨pre⟩) "component_0" = a := congrArg Prod.fst h
        have hb : lookupVar cs (pyStrip ⟨post⟩) "component_1" = b := congrArg Prod.snd h
        subst ha
        subst hb
        exact ⟨lookupVar_mem cs _ _ h0, lookupVar_mem cs _ _ h1⟩
  · simp [edgeOfConn, hin] at h

/-- Claim C1, amended part.  Whenever the agent builder finishes without an
exception and at least two components were declared, every emitted edge
references identifiers of defined nodes: a resolvable endpoint maps to the
matching component's identifier, and an unresolvable endpoint is replaced by
the fixed identifiers `component_0` (from) and `component_1` (to), which
exist when there are at least two nodes. -/
theorem build_edges_endpoints_defined (cs conns : List String)
    (edges : List (String × String)) (h2 : 2 ≤ cs.length)
    (hok : buildEdgesAgentE cs conns = .ok edges) :
    ∀ e ∈ edges, e.1 ∈ agentNodeIds cs ∧ e.2 ∈ agentNodeIds cs := by
  induction conns generalizing edges with
  | nil =>
    unfold buildEdgesAgentE at hok
    injection hok with h
    subst h
    intro e he
    cases he
  | cons conn rest ih =>
    unfold buildEdgesAgentE at hok
    cases hc : edgeOfConn cs conn with
    | error err => rw [hc] at hok; exact absurd hok (by simp)
    | ok oed =>
      rw [hc] at hok
      cases oed with
      | none => exact ih edges hok
      | some ed =>
        cases hrest : buildEdgesAgentE cs rest with
        | error err => rw [hrest] at hok; exact absurd hok (by simp)
        | ok es =>
          rw [hrest] at hok
          have hok2 : ed :: es = edges := by
            have := hok
            simpa using this
          subst hok2
          intro e he
          rcases List.mem_cons.mp he with h1 | h1
          · subst h1
            obtain ⟨a, b⟩ := e
            exact edgeOfConn_endpoints cs conn a b h2 hc
          · exact ih es hrest e h1

/-- Claim C1, counterexample.  With a single declared component and a
connection whose to-endpoint matches no component, the agent builder emits
an edge to the fixed identifier `component_1` — not to the only node
`component_0` as the claim's "or the first, if only one node exists" clause
states — so the resulting edge dangles. -/
theorem build_emits_dangling_edge :
    buildEdgesAgentE ["App"] ["App -> Ghost"] =
        .ok [("component_0", "component_1")] ∧
    "component_1" ∉ agentNodeIds ["App"] := by
  decide

/-- Claim C1, witness.  With two declared components and a connection whose
to-endpoint is unknown, the substituted endpoints are identifiers of defined
nodes. -/
theorem build_edges_endpoints_defined_witness :
    ("component_0", "component_1").1 ∈ agentNodeIds ["Web", "DB"] ∧
    ("component_0", "component_1").2 ∈ agentNodeIds ["Web", "DB"] :=
  build_edges_endpoints_defined ["Web", "DB"] ["Web -> Ghost"]
    [("component_0", "component_1")] (by decide) (by decide)
    ("component_0", "component_1") (by decide)

/-! ## Claim C7 — chat-turn generation trigger -/

/-- Claim C7, counterexample.  The message "build a diagram" matches the
claimed keyword set (it contains "build", "diagram"), yet the chat handler
does not attempt diagram generation: its test requires one of "create",
"make", "generate", "show" in the message (together with "diagram" in the
assistant's reply), and none is present. -/
theorem chat_keyword_policy_differs :
    (["create", "generate", "make", "build", "diagram", "architecture"].any
        (fun w => strContains (lowerStr "build a diagram") w)) = true ∧
    chatAttemptsGeneration "build a diagram"
        (mockAssistantResponse "build a diagram") = false ∧
    (assistantChat "build a diagram"
        (.ok (mockAssistantResponse "build a diagram"))
        (generateDiagram "build a diagram"
          (.ok (mockDiagramCode "build a diagram")) none "f.png")).attempted = false := by
  refine ⟨by decide, by decide, ?_⟩
  decide

/-- The attempted-generation flag of a chat turn equals the source's
`has_diagram` test. -/
theorem assistantChatCore_attempted (message response : String) (gen : GenResult) :
    (assistantChatCore message response gen).attempted =
      chatAttemptsGeneration message response := by
  unfold assistantChatCore
  by_cases hb : chatAttemptsGeneration message response = true
  · rw [if_pos hb, hb]
    by_cases hg : gen.success = true
    · rw [if_pos hg]
    · rw [if_neg hg]
  · rw [if_neg hb]
    simp only [Bool.not_eq_true] at hb
    rw [hb]

/-- Claim C7, amended.  Diagram generation is attempted on a chat turn if and
only if the assistant's reply contains "diagram" (case-insensitively) and the
incoming message contains one of "create", "make", "generate", "show"
(case-insensitively): the decision depends on the reply as well as the
message, and the keyword set is not the claimed one. -/
theorem chat_attempts_generation_iff (message response : String) (gen : GenResult) :
    (assistantChatCore message response gen).attempted = true ↔
      (strContains (lowerStr response) "diagram" = true ∧
        ∃ w ∈ (["create", "make", "generate", "show"] : List String),
          strContains (lowerStr message) w = true) := by
  rw [assistantChatCore_attempted]
  unfold chatAttemptsGeneration
  simp [List.any_eq_true]

/-! ## Claim C8 — the orchestrator error boundary -/

/-- Claim C8, counterexample.  A connection line with two "->" separators
makes the agent builder raise (Python unpacking of three parts into two),
but the exception is caught inside `_build_diagram_from_description` and
converted into the fallback template, not at the orchestrator boundary: with
a succeeding renderer, `generate_diagram` returns success = true and no
error, while the claim requires any exception during building to yield
success = false with the exception message. -/
theorem build_exception_yields_success :
    buildCodeAgentE (parseStructuredDescriptionAgent "Connections:\na -> b -> c").1
        (parseStructuredDescriptionAgent "Connections:\na -> b -> c").2 =
      .error "too many values to unpack (expected 2)" ∧
    (generateDiagram "x" (.ok "Connections:\na -> b -> c") none "f.png").success = true ∧
    (generateDiagram "x" (.ok "Connections:\na -> b -> c") none "f.png").error = none ∧
    (generateDiagram "x" (.ok "Connections:\na -> b -> c") none "f.png").diagramCode =
        some agentFallbackCode := by
  refine ⟨by decide, rfl, rfl, by decide⟩

/-- Claim C8, amended.  Exceptions that actually reach the orchestrator
boundary — those raised while obtaining the structured description — are
converted into success = false with the exception's message and no program
text, and the chat handler's boundary likewise converts any exception from
obtaining the reply into a canned failure reply with no diagram; but
exceptions during parsing and building are caught at inner boundaries and
converted into fallback outputs, and rendering exceptions surface with a
fixed message, so those do not produce the claimed result shape. -/
theorem orchestrator_error_boundary (d e fn : String) (r : Option String)
    (gen : GenResult) :
    (generateDiagram d (.error e) r fn).success = false ∧
    (generateDiagram d (.error e) r fn).error = some e ∧
    (generateDiagram d (.error e) r fn).diagramCode = none ∧
    (assistantChat d (.error e) gen).hasDiagram = false ∧
    (assistantChat d (.error e) gen).message =
        "Sorry, I\x27m having trouble right now. Please try again!" := by
  exact ⟨rfl, rfl, rfl, rfl, rfl⟩

/-! ## Claim C9 — conversation store operations -/

/-- Appending a sequence of turns to an existing transcript extends it at the
end, in order. -/
theorem convAppendAll_lookup (id : String) :
    ∀ (ts : List ConversationTurn) (st : ConvState) (xs : List ConversationTurn),
      st id = some xs → convAppendAll st id ts id = some (xs ++ ts) := by
  intro ts
  induction ts with
  | nil => intro st xs hs; simpa [convAppendAll] using hs
  | cons t rest ih =>
    intro st xs hs
    have hstep : convAppend st id t id = some (xs ++ [t]) := by
      simp [convAppend, hs]
    have := ih (convAppend st id t) (xs ++ [t]) hstep
    simpa [convAppendAll, List.append_assoc] using this

/-- Claim C9.  Reading recent turns after a sequence of appends to a fresh
conversation returns the last min(n, total) turns in insertion order (a
suffix of the appended sequence); reading an unknown identifier returns the
empty sequence; reading after deletion returns the empty sequence; and
deletion is idempotent, the second deletion reporting that no record
existed. -/
theorem conversation_state_ops (id uid : String) (ts : List ConversationTurn)
    (n : Nat) (st : ConvState) (hun : st uid = none) :
    recentTurns (convAppendAll emptyConv id ts) id n = takeLast n ts ∧
    (takeLast n ts).length = min n ts.length ∧
    List.IsSuffix (takeLast n ts) ts ∧
    recentTurns st uid n = [] ∧
    recentTurns ((convDelete st id).1) id n = [] ∧
    (convDelete ((convDelete st id).1) id).1 = (convDelete st id).1 ∧
    (convDelete ((convDelete st id).1) id).2 = false := by
  refine ⟨?_, ?_, ?_, ?_, ?_, ?_, ?_⟩
  · cases ts with
    | nil => simp [convAppendAll, recentTurns, emptyConv, takeLast]
    | cons t rest =>
      have hstep : convAppend emptyConv id t id = some [t] := by
        simp [convAppend, emptyConv]
      have hlk := convAppendAll_lookup id rest (convAppend emptyConv id t) [t] hstep
      have : convAppendAll emptyConv id (t :: rest) id = some (t :: rest) := by
        simpa [convAppendAll] using hlk
      simp [recentTurns, this]
  · simp only [takeLast, List.length_drop]
    omega
  · exact ⟨ts.take (ts.length - n), List.take_append_drop _ _⟩
  · simp [recentTurns, hun]
  · simp [recentTurns, convDelete]
  · funext k
    by_cases hk : k = id <;> simp [convDelete, hk]
  · simp [convDelete]

/-- Claim C9, witness: a concrete two-turn conversation read with bound 1,
an unknown identifier, and a delete-then-read. -/
theorem conversation_state_ops_witness :
    recentTurns (convAppendAll emptyConv "a"
        [⟨"user", "hi", 0⟩, ⟨"assistant", "hello", 1⟩]) "a" 1 =
      takeLast 1 [⟨"user", "hi", 0⟩, ⟨"assistant", "hello", 1⟩] ∧
    (takeLast 1 [(⟨"user", "hi", 0⟩ : ConversationTurn),
        ⟨"assistant", "hello", 1⟩]).length =
      min 1 [(⟨"user", "hi", 0⟩ : ConversationTurn), ⟨"assistant", "hello", 1⟩].length ∧
    List.IsSuffix (takeLast 1 [(⟨"user", "hi", 0⟩ : ConversationTurn),
        ⟨"assistant", "hello", 1⟩])
      [⟨"user", "hi", 0⟩, ⟨"assistant", "hello", 1⟩] ∧
    recentTurns emptyConv "b" 1 = [] ∧
    recentTurns ((convDelete emptyConv "a").1) "a" 1 = [] ∧
    (convDelete ((convDelete emptyConv "a").1) "a").1 = (convDelete emptyConv "a").1 ∧
    (convDelete ((convDelete emptyConv "a").1) "a").2 = false :=
  conversation_state_ops "a" "b" [⟨"user", "hi", 0⟩, ⟨"assistant", "hello", 1⟩]
    1 emptyConv rfl

/-! ## Claim C6 — parser defaulting policy -/

/-- Claim C6.  If the line scan parses zero components, the parser returns
exactly the two default components web_server ("Web Server") and database
("Database"); and if the line scan parses zero connections while the
(possibly defaulted) component list has at least two entries, the parser
returns exactly one synthesized connection from the first component to the
second. -/
theorem parse_defaulting_policy (t : String) :
    ((parseSimpleRaw t).1 = [] →
      (parseStructuredDescriptionSimple t).1 = defaultComponents) ∧
    ((parseSimpleRaw t).2 = [] →
      2 ≤ (parseStructuredDescriptionSimple t).1.length →
      (parseStructuredDescriptionSimple t).2 =
        [⟨((parseStructuredDescriptionSimple t).1.getD 0 dummyComponent).name,
          ((parseStructuredDescriptionSimple t).1.getD 1 dummyComponent).name⟩]) := by
  unfold parseStructuredDescriptionSimple
  rcases hp : parseSimpleRaw t with ⟨cs, ns⟩
  constructor
  · intro h1
    simp only at h1
    subst h1
    simp
  · intro h2 hlen
    simp only at h2 hlen ⊢
    subst h2
    rw [if_pos ⟨rfl, hlen⟩]

/-- Claim C6, witness: the empty input parses to the default two-component
graph with the single default connection. -/
theorem parse_defaulting_policy_witness :
    (parseStructuredDescriptionSimple "").1 = defaultComponents ∧
    (parseStructuredDescriptionSimple "").2 = [⟨"web_server", "database"⟩] := by
  refine ⟨(parse_defaulting_policy "").1 (by decide), ?_⟩
  have h := (parse_defaulting_policy "").2 (by decide) (by decide)
  rw [h]
  decide

/-! ## Claim C5 — parser line grammars -/

/-- A non-empty components-section line free of the section keywords that
matches one of the two grammars appends exactly one component and keeps the
section. -/
theorem processLineSimple_comp_adds (comps : List Component)
    (conns : List ConnectionDecl) (raw : String)
    (hne : pyStrip raw ≠ "")
    (hk1 : strContains (lowerStr (pyStrip raw)) "component" = false)
    (hk2 : strContains (lowerStr (pyStrip raw)) "connection" = false)
    (hg : ((strContainsCh (pyStrip raw) '(' && strContainsCh (pyStrip raw) ')')
        || strContainsCh (pyStrip raw) ':') = true) :
    ∃ c, processLineSimple ⟨.inComps, comps, conns⟩ raw =
      ⟨.inComps, comps ++ [c], conns⟩ := by
  by_cases hpar : (strContainsCh (pyStrip raw) '(' && strContainsCh (pyStrip raw) ')') = true
  · refine ⟨mkComponent (pyStrip ⟨splitPart0 ['('] (pyStrip raw).data⟩)
      (pyStrip ⟨splitPart0 [')'] (splitPart1 ['('] (pyStrip raw).data)⟩), ?_⟩
    simp only [processLineSimple, if_neg hne, hk1, hk2, hpar, Bool.false_eq_true,
      if_false, if_true, ite_true, ite_false]
  · have hpar2 : (strContainsCh (pyStrip raw) '(' && strContainsCh (pyStrip raw) ')') = false :=
      (Bool.not_eq_true _) ▸ hpar
    rw [hpar2, Bool.false_or] at hg
    refine ⟨mkComponent (pyStrip ⟨splitPart0 [':'] (pyStrip raw).data⟩)
      (pyStrip ⟨splitPart1 [':'] (pyStrip raw).data⟩), ?_⟩
    simp only [processLineSimple, if_neg hne, hk1, hk2, hpar2, hg, Bool.false_eq_true,
      if_false, if_true, ite_true, ite_false]

/-- A non-empty components-section line free of the section keywords that
matches neither grammar is dropped: the state is unchanged. -/
theorem processLineSimple_comp_skips (comps : List Component)
    (conns : List ConnectionDecl) (raw : String)
    (hne : pyStrip raw ≠ "")
    (hk1 : strContains (lowerStr (pyStrip raw)) "component" = false)
    (hk2 : strContains (lowerStr (pyStrip raw)) "connection" = false)
    (hg : ((strContainsCh (pyStrip raw) '(' && strContainsCh (pyStrip raw) ')')
        || strContainsCh (pyStrip raw) ':') = false) :
    processLineSimple ⟨.inComps, comps, conns⟩ raw = ⟨.inComps, comps, conns⟩ := by
  have hpar : (strContainsCh (pyStrip raw) '(' && strContainsCh (pyStrip raw) ')') = false := by
    cases h : (strContainsCh (pyStrip raw) '(' && strContainsCh (pyStrip raw) ')') with
    | false => rfl
    | true => rw [h, Bool.true_or] at hg; exact hg
  have hcol : strContainsCh (pyStrip raw) ':' = false := by
    rw [hpar, Bool.false_or] at hg
    exact hg
  simp only [processLineSimple, if_neg hne, hk1, hk2, hpar, hcol, Bool.false_eq_true,
    if_false, if_true, ite_true, ite_false]

/-- A connections-section line free of the section keywords that contains
"->" appends exactly one connection, from the trimmed text before the first
"->" to the trimmed text between the first and second occurrence (or the
rest). -/
theorem processLineSimple_conn_adds (comps : List Component)
    (conns : List ConnectionDecl) (raw : String)
    (hne : pyStrip raw ≠ "")
    (hk1 : strContains (lowerStr (pyStrip raw)) "component" = false)
    (hk2 : strContains (lowerStr (pyStrip raw)) "connection" = false)
    (ha : strContains (pyStrip raw) "->" = true) :
    processLineSimple ⟨.inConns, comps, conns⟩ raw =
      ⟨.inConns, comps,
        conns ++ [⟨pyStrip ⟨splitPart0 ['-', '>'] (pyStrip raw).data⟩,
                  pyStrip ⟨splitPart1 ['-', '>'] (pyStrip raw).data⟩⟩]⟩ := by
  simp only [processLineSimple, if_neg hne, hk1, hk2, ha, Bool.false_eq_true,
    if_false, if_true, ite_true, ite_false]

/-- Claim C5, counterexample.  In the components section, the non-empty data
line "cache" matches neither `name (category)` nor `name: category`, and the
simple parser drops it entirely instead of keeping the trimmed line as a
component name: parsing yields only the component of the following
grammar-conforming line. -/
theorem parse_drops_bare_component_line :
    (parseSimpleRaw "Components:\ncache\nweb (Web)").1 =
        [⟨"web", "Web", "Web"⟩] ∧
    ((parseSimpleRaw "Components:\ncache\nweb (Web)").1.map Component.name =
        ["web"]) := by
  decide

/-- Claim C5, amended.  In the components section a non-empty data line free
of the section keywords is parsed as `name (category)` when it contains both
parentheses, else as `name: category` when it contains a colon; a line
matching neither grammar is dropped, not kept as a bare component name.  In
the connections section such a line containing "->" is split into from/to,
the from part being the trimmed text before the first "->" and the to part
the trimmed text between the first and the second occurrence (or the rest),
both trimmed. -/
theorem parse_line_grammar_behavior (comps : List Component)
    (conns : List ConnectionDecl) (raw : String)
    (hne : pyStrip raw ≠ "")
    (hk1 : strContains (lowerStr (pyStrip raw)) "component" = false)
    (hk2 : strContains (lowerStr (pyStrip raw)) "connection" = false) :
    (((strContainsCh (pyStrip raw) '(' && strContainsCh (pyStrip raw) ')')
        || strContainsCh (pyStrip raw) ':') = true →
      ∃ c, processLineSimple ⟨.inComps, comps, conns⟩ raw =
        ⟨.inComps, comps ++ [c], conns⟩) ∧
    (((strContainsCh (pyStrip raw) '(' && strContainsCh (pyStrip raw) ')')
        || strContainsCh (pyStrip raw) ':') = false →
      processLineSimple ⟨.inComps, comps, conns⟩ raw = ⟨.inComps, comps, conns⟩) ∧
    (strContains (pyStrip raw) "->" = true →
      processLineSimple ⟨.inConns, comps, conns⟩ raw =
        ⟨.inConns, comps,
          conns ++ [⟨pyStrip ⟨splitPart0 ['-', '>'] (pyStrip raw).data⟩,
                    pyStrip ⟨splitPart1 ['-', '>'] (pyStrip raw).data⟩⟩]⟩) :=
  ⟨processLineSimple_comp_adds comps conns raw hne hk1 hk2,
   processLineSimple_comp_skips comps conns raw hne hk1 hk2,
   processLineSimple_conn_adds comps conns raw hne hk1 hk2⟩

/-- Claim C5, witness: a grammar-free line is dropped, and a connection line
with two arrows keeps only the middle part as the to-endpoint. -/
theorem parse_line_grammar_behavior_witness :
    processLineSimple ⟨.inComps, [], []⟩ "  cache  " = ⟨.inComps, [], []⟩ ∧
    processLineSimple ⟨.inConns, [], []⟩ " a -> b -> c " =
      ⟨.inConns, [],
        [⟨pyStrip ⟨splitPart0 ['-', '>'] (pyStrip " a -> b -> c ").data⟩,
          pyStrip ⟨splitPart1 ['-', '>'] (pyStrip " a -> b -> c ").data⟩⟩]⟩ :=
  ⟨(parse_line_grammar_behavior [] [] "  cache  "
      (by decide) (by decide) (by decide)).2.1 (by decide),
   (parse_line_grammar_behavior [] [] " a -> b -> c "
      (by decide) (by decide) (by decide)).2.2 (by decide)⟩

/-! ## Claim C10 — round-trip counts -/

/-- A well-formed components-section data line: non-empty after trimming,
free of the section-switching keywords, and matching one of the two
component grammars. -/
def GoodCompLine (raw : String) : Prop :=
  pyStrip raw ≠ "" ∧
  strContains (lowerStr (pyStrip raw)) "component" = false ∧
  strContains (lowerStr (pyStrip raw)) "connection" = false ∧
  ((strContainsCh (pyStrip raw) '(' && strContainsCh (pyStrip raw) ')')
      || strContainsCh (pyStrip raw) ':') = true

/-- A well-formed connections-section data line: non-empty after trimming,
free of the section-switching keywords, and containing "->". -/
def GoodConnLine (raw : String) : Prop :=
  pyStrip raw ≠ "" ∧
  strContains (lowerStr (pyStrip raw)) "component" = false ∧
  strContains (lowerStr (pyStrip raw)) "connection" = false ∧
  strContains (pyStrip raw) "->" = true

instance (raw : String) : Decidable (GoodCompLine raw) := by
  unfold GoodCompLine
  infer_instance

instance (raw : String) : Decidable (GoodConnLine raw) := by
  unfold GoodConnLine
  infer_instance

/-- Folding the simple parser over well-formed component lines appends one
component per line and stays in the components section. -/
theorem foldl_comp_lines (cls : List String) :
    ∀ (comps : List Component) (conns : List ConnectionDecl),
      (∀ l ∈ cls, GoodCompLine l) →
      ∃ cs2, cls.foldl processLineSimple ⟨.inComps, comps, conns⟩ =
        ⟨.inComps, comps ++ cs2, conns⟩ ∧ cs2.length = cls.length := by
  induction cls with
  | nil => intro comps conns _; exact ⟨[], by simp, rfl⟩
  | cons l rest ih =>
    intro comps conns hg
    obtain ⟨hne, hk1, hk2, hgr⟩ := hg l (List.mem_cons_self l rest)
    obtain ⟨c, hc⟩ := processLineSimple_comp_adds comps conns l hne hk1 hk2 hgr
    obtain ⟨cs2, hcs2, hlen⟩ :=
      ih (comps ++ [c]) conns (fun x hx => hg x (List.mem_cons_of_mem _ hx))
    refine ⟨c :: cs2, ?_, by simp [hlen]⟩
    rw [List.foldl_cons, hc, hcs2, List.append_assoc, List.singleton_append]

/-- Folding the simple parser over well-formed connection lines appends one
connection per line and stays in the connections section. -/
theorem foldl_conn_lines (nls : List String) :
    ∀ (comps : List Component) (conns : List ConnectionDecl),
      (∀ l ∈ nls, GoodConnLine l) →
      ∃ ns2, nls.foldl processLineSimple ⟨.inConns, comps, conns⟩ =
        ⟨.inConns, comps, conns ++ ns2⟩ ∧ ns2.length = nls.length := by
  induction nls with
  | nil => intro comps conns _; exact ⟨[], by simp, rfl⟩
  | cons l rest ih =>
    intro comps conns hg
    obtain ⟨hne, hk1, hk2, ha⟩ := hg l (List.mem_cons_self l rest)
    have hc := processLineSimple_conn_adds comps conns l hne hk1 hk2 ha
    obtain ⟨ns2, hns2, hlen⟩ :=
      ih comps
        (conns ++ [⟨pyStrip ⟨splitPart0 ['-', '>'] (pyStrip l).data⟩,
                    pyStrip ⟨splitPart1 ['-', '>'] (pyStrip l).data⟩⟩])
        (fun x hx => hg x (List.mem_cons_of_mem _ hx))
    refine ⟨⟨pyStrip ⟨splitPart0 ['-', '>'] (pyStrip l).data⟩,
             pyStrip ⟨splitPart1 ['-', '>'] (pyStrip l).data⟩⟩ :: ns2, ?_, by simp [hlen]⟩
    rw [List.foldl_cons, hc, hns2, List.append_assoc, List.singleton_append]

/-- The line "Components:" switches any parser state to the components
section and is consumed. -/
theorem processLineSimple_components_header (st : SimpleParseState) :
    processLineSimple st "Components:" = ⟨.inComps, st.comps, st.conns⟩ := by
  have h0 : ¬ (pyStrip "Components:" = "") := by decide
  have h1 : strContains (lowerStr (pyStrip "Components:")) "component" = true := by
    decide
  simp only [processLineSimple, if_neg h0, h1, if_true, ite_true]

/-- The line "Connections:" switches any parser state to the connections
section and is consumed. -/
theorem processLineSimple_connections_header (st : SimpleParseState) :
    processLineSimple st "Connections:" = ⟨.inConns, st.comps, st.conns⟩ := by
  have h0 : ¬ (pyStrip "Connections:" = "") := by decide
  have h1 : strContains (lowerStr (pyStrip "Connections:")) "component" = false := by
    decide
  have h2 : strContains (lowerStr (pyStrip "Connections:")) "connection" = true := by
    decide
  simp only [processLineSimple, if_neg h0, h1, h2, Bool.false_eq_true,
    if_false, if_true, ite_true, ite_false]

/-- Claim C10.  On a well-formed structured text — explicit Components and
Connections header lines, every component data line matching a component
grammar, every connection data line containing "->", at least one of each —
building after parsing yields exactly one node per declared component and
one edge per declared connection. -/
theorem roundtrip_counts (t : String) (cls nls : List String)
    (hsplit : splitLines (pyStrip t) = "Components:" :: (cls ++ "Connections:" :: nls))
    (hcls : ∀ l ∈ cls, GoodCompLine l)
    (hnls : ∀ l ∈ nls, GoodConnLine l)
    (hc1 : cls ≠ []) (hn1 : nls ≠ []) :
    (buildNodesSimple (parseStructuredDescriptionSimple t).1).length = cls.length ∧
    (buildEdgesSimple (parseStructuredDescriptionSimple t).2).length = nls.length := by
  obtain ⟨cs2, hcs2, hlenc⟩ := foldl_comp_lines cls [] [] hcls
  obtain ⟨ns2, hns2, hlenn⟩ := foldl_conn_lines nls cs2 [] hnls
  have hcs2' : cls.foldl processLineSimple ⟨.inComps, [], []⟩ = ⟨.inComps, cs2, []⟩ := by
    simpa using hcs2
  have hns2' : nls.foldl processLineSimple ⟨.inConns, cs2, []⟩ = ⟨.inConns, cs2, ns2⟩ := by
    simpa using hns2
  have step0 : processLineSimple ⟨.noMode, [], []⟩ "Components:" = ⟨.inComps, [], []⟩ :=
    processLineSimple_components_header ⟨.noMode, [], []⟩
  have stepc : processLineSimple ⟨.inComps, cs2, []⟩ "Connections:" = ⟨.inConns, cs2, []⟩ :=
    processLineSimple_connections_header ⟨.inComps, cs2, []⟩
  have hpr : parseSimpleRaw t = (cs2, ns2) := by
    unfold parseSimpleRaw
    rw [hsplit, List.foldl_cons, step0, List.foldl_append, hcs2',
      List.foldl_cons, stepc, hns2']
  have hcsne : cs2 ≠ [] := by
    intro h
    subst h
    exact hc1 (List.eq_nil_of_length_eq_zero hlenc.symm)
  have hnsne : ns2 ≠ [] := by
    intro h
    subst h
    exact hn1 (List.eq_nil_of_length_eq_zero hlenn.symm)
  have hfinal : parseStructuredDescriptionSimple t = (cs2, ns2) := by
    unfold parseStructuredDescriptionSimple
    rw [hpr]
    simp only [if_neg hcsne]
    rw [if_neg (by rintro ⟨h, _⟩; exact hnsne h)]
  rw [hfinal]
  simp [buildNodesSimple, buildEdgesSimple, hlenc, hlenn]

/-- Claim C10, witness: a concrete well-formed text with two components and
one connection produces two nodes and one edge. -/
theorem roundtrip_counts_witness :
    (buildNodesSimple (parseStructuredDescriptionSimple
        "Components:\nweb (Web Server)\ndb: Database\nConnections:\nweb -> db").1).length = 2 ∧
    (buildEdgesSimple (parseStructuredDescriptionSimple
        "Components:\nweb (Web Server)\ndb: Database\nConnections:\nweb -> db").2).length = 1 :=
  roundtrip_counts "Components:\nweb (Web Server)\ndb: Database\nConnections:\nweb -> db"
    ["web (Web Server)", "db: Database"] ["web -> db"]
    (by decide) (by decide) (by decide) (by decide) (by decide)
